import Mathlib

/-!
Verification of the MARIANA-AI client (`src/static/script.js`).

The script is a Socket.IO frontend: it submits a research topic, renders a
subtopic list, patches per-subtopic status rows, and renders a final report
by a two-pass regex emphasis substitution followed by a blank-line block
classifier.  All string-manipulating code is embedded below over `List Char`,
mirroring the JavaScript operation by operation:

* `replaceLazy` is the semantics of `String.prototype.replace` with the two
  global lazy patterns of lines 127-128 (an opening delimiter, a shortest
  non-newline span, a closing delimiter; on failure the scanner advances one
  character).
* `splitBlocks` / `splitLines` are `split('\n\n')` / `split('\n')`.
* `renderBlock` is the per-block branch of lines 131-138, `renderReport` the
  whole of lines 125-149.
* `Row`, `statusInfo`, `updateSubTopicStatus` model the subtopic list DOM
  rows and lines 103-123.
* `ClientState` with the `on*` handlers models the DOM state touched by the
  socket handlers of lines 56-80 and `startResearch` of lines 152-163.
-/

abbrev Str := List Char

/-- JavaScript `String.prototype.trim` (both-ends whitespace strip). -/
def jsTrim (s : Str) : Str :=
  ((s.dropWhile Char.isWhitespace).reverse.dropWhile Char.isWhitespace).reverse

/-- `needle` occurs as a contiguous substring of `hay`. -/
def containsSub (needle hay : Str) : Bool :=
  match hay with
  | [] => needle.isEmpty
  | _ :: t => needle.isPrefixOf hay || containsSub needle t

/-! ## The inline formatter (script.js lines 126-128)

`report.replace(/\*\*(.*?)\*\*/g, '<strong ...>$1</strong>')` followed by
`.replace(/\*(.*?)\*/g, '<em>$1</em>')`.  Both patterns are: delimiter,
lazy non-newline span, delimiter.  `findClose` finds the earliest closing
delimiter with no intervening newline; `replaceLazy` is the global scan. -/

/-- Search for the earliest occurrence of `delim`; return the characters
before it (the lazy capture, which may not contain a newline) and the
remainder after it. -/
def findClose (delim : Str) : Str → Option (Str × Str)
  | [] => none
  | c :: cs =>
    if delim.isPrefixOf (c :: cs) then some ([], (c :: cs).drop delim.length)
    else if c = '\n' then none
    else
      match findClose delim cs with
      | some (cap, rest) => some (c :: cap, rest)
      | none => none

/-- Global lazy replacement: at each position, if the delimiter opens and
closes ahead of a newline, wrap the capture in `pre`/`post` and resume after
the closing delimiter; otherwise emit one character and move on.  Fuel is
the length of the scanned text, which suffices because every step consumes
at least one character. -/
def replaceLazy (delim pre post : Str) : Nat → Str → Str
  | 0, s => s
  | _ + 1, [] => []
  | fuel + 1, c :: cs =>
    if delim.isPrefixOf (c :: cs) then
      match findClose delim ((c :: cs).drop delim.length) with
      | some (cap, rest) => pre ++ cap ++ post ++ replaceLazy delim pre post fuel rest
      | none => c :: replaceLazy delim pre post fuel cs
    else c :: replaceLazy delim pre post fuel cs

def strongOpen : Str :=
  "<strong class=\"font-semibold text-gray-900 dark:text-gray-100\">".toList

def strongClose : Str := "</strong>".toList

def emOpen : Str := "<em>".toList

def emClose : Str := "</em>".toList

/-- Pass 1: `.replace(/\*\*(.*?)\*\*/g, '<strong ...>$1</strong>')`. -/
def strongPass (s : Str) : Str :=
  replaceLazy ['*', '*'] strongOpen strongClose s.length s

/-- Pass 2: `.replace(/\*(.*?)\*/g, '<em>$1</em>')`. -/
def emPass (s : Str) : Str :=
  replaceLazy ['*'] emOpen emClose s.length s

/-- The inline formatter: pass 2 applied to the result of pass 1. -/
def formatInline (s : Str) : Str := emPass (strongPass s)

/-! ## The block renderer (script.js lines 130-139) -/

/-- `split('\n\n')`: split on each non-overlapping occurrence of two
consecutive newline characters, scanning left to right. -/
def splitBlocks : Str → List Str
  | [] => [[]]
  | '\n' :: '\n' :: rest => [] :: splitBlocks rest
  | c :: rest =>
    match splitBlocks rest with
    | [] => [[c]]
    | p :: ps => (c :: p) :: ps

/-- `split('\n')`. -/
def splitLines : Str → List Str
  | [] => [[]]
  | '\n' :: rest => [] :: splitLines rest
  | c :: rest =>
    match splitLines rest with
    | [] => [[c]]
    | p :: ps => (c :: p) :: ps

/-- One block of the report document: the tagged outcome of the prefix
classification of lines 131-138. -/
inductive Block where
  | heading : Nat → Str → Block
  | bulletList : List Str → Block
  | paragraph : Str → Block
deriving DecidableEq

/-- The prefix classification of lines 131-138, producing the block tag and
payload instead of the HTML wrapper (see `renderBlock_eq_blockHtml` for the
correspondence with the emitted HTML): `'### '` → heading 3 stripping 4
characters, `'## '` → heading 2 stripping 3, `'# '` → heading 1 stripping 2,
a first line starting `'- '` → bullet list with 2 characters stripped from
every line, otherwise a paragraph. -/
def classifyBlock (block : Str) : Block :=
  if ("### ".toList).isPrefixOf block then .heading 3 (block.drop 4)
  else if ("## ".toList).isPrefixOf block then .heading 2 (block.drop 3)
  else if ("# ".toList).isPrefixOf block then .heading 1 (block.drop 2)
  else if ("- ".toList).isPrefixOf block then
    .bulletList ((splitLines block).map (fun item => item.drop 2))
  else .paragraph block

/-- The block renderer as a tree producer: split on blank lines, classify
each raw block. -/
def renderBlocks (text : Str) : List Block :=
  (splitBlocks text).map classifyBlock

/-- The HTML wrapper each classified block is emitted with (the template
literals of lines 131-138). -/
def blockHtml : Block → Str
  | .heading 3 t =>
      "<h3 class=\"text-xl font-bold mb-2 mt-4 text-gray-100\">".toList ++ t
        ++ "</h3>".toList
  | .heading 2 t =>
      "<h2 class=\"text-2xl font-bold mb-3 mt-5 text-white border-b border-zinc-700 pb-2\">".toList
        ++ t ++ "</h2>".toList
  | .heading _ t =>
      "<h1 class=\"text-3xl font-bold mb-4 mt-6 text-white\">".toList ++ t
        ++ "</h1>".toList
  | .bulletList items =>
      "<ul class=\"list-disc pl-6 space-y-1 my-4\">".toList
        ++ (items.map (fun item =>
              "<li class=\"mb-1\">".toList ++ item ++ "</li>".toList)).flatten
        ++ "</ul>".toList
  | .paragraph t =>
      "<p class=\"mb-4 text-gray-300 leading-relaxed\">".toList ++ t
        ++ "</p>".toList

/-- The per-block HTML emission of lines 131-138, written exactly as the
source branches. -/
def renderBlock (block : Str) : Str :=
  if ("### ".toList).isPrefixOf block then
    "<h3 class=\"text-xl font-bold mb-2 mt-4 text-gray-100\">".toList
      ++ block.drop 4 ++ "</h3>".toList
  else if ("## ".toList).isPrefixOf block then
    "<h2 class=\"text-2xl font-bold mb-3 mt-5 text-white border-b border-zinc-700 pb-2\">".toList
      ++ block.drop 3 ++ "</h2>".toList
  else if ("# ".toList).isPrefixOf block then
    "<h1 class=\"text-3xl font-bold mb-4 mt-6 text-white\">".toList
      ++ block.drop 2 ++ "</h1>".toList
  else if ("- ".toList).isPrefixOf block then
    "<ul class=\"list-disc pl-6 space-y-1 my-4\">".toList
      ++ ((splitLines block).map (fun item =>
            "<li class=\"mb-1\">".toList ++ item.drop 2 ++ "</li>".toList)).flatten
      ++ "</ul>".toList
  else
    "<p class=\"mb-4 text-gray-300 leading-relaxed\">".toList ++ block
      ++ "</p>".toList

/-- `renderReport` (lines 125-149): inline passes over the whole report,
then split into blocks, render each, join with `''`, and interpolate into
the outer template literal (lines 141-146) together with `currentTopic`. -/
def renderReport (report currentTopic : Str) : Str :=
  let html := formatInline report
  let html := ((splitBlocks html).map renderBlock).flatten
  "\n      <h2 class=\"text-3xl font-extrabold text-white\">Final Report: <span class=\"text-sky-400\">".toList
    ++ currentTopic
    ++ "</span></h2>\n      <div class=\"mt-6 p-6 sm:p-8 bg-zinc-900/80 rounded-xl shadow-2xl border border-zinc-800 backdrop-blur-sm\">\n        ".toList
    ++ html
    ++ "\n      </div>\n    ".toList

/-! ## The subtopic list (script.js lines 83-123)

A rendered subtopic row is abstracted to the DOM attributes the script
reads or writes: the topic label, the `<li>` class, the status `<div>`
class, and the status `<div>` innerHTML. -/

def iconLoader : Str :=
  "<svg class=\"animate-spin h-5 w-5\" xmlns=\"http://www.w3.org/2000/svg\" fill=\"none\" viewBox=\"0 0 24 24\"><circle class=\"opacity-25\" cx=\"12\" cy=\"12\" r=\"10\" stroke=\"currentColor\" stroke-width=\"4\"></circle><path class=\"opacity-75\" fill=\"currentColor\" d=\"M4 12a8 8 0 018-8V0C5.373 0 0 5.373 0 12h4zm2 5.291A7.962 7.962 0 014 12H0c0 3.042 1.135 5.824 3 7.938l3-2.647z\"></path></svg>".toList

def iconCheck : Str :=
  "<svg class=\"h-5 w-5\" viewBox=\"0 0 20 20\" fill=\"currentColor\"><path fill-rule=\"evenodd\" d=\"M10 18a8 8 0 100-16 8 8 0 000 16zm3.707-9.293a1 1 0 00-1.414-1.414L9 10.586 7.707 9.293a1 1 0 00-1.414 1.414l2 2a1 1 0 001.414 0l4-4z\" clip-rule=\"evenodd\" /></svg>".toList

def iconError : Str :=
  "<svg class=\"h-5 w-5\" viewBox=\"0 0 20 20\" fill=\"currentColor\"><path fill-rule=\"evenodd\" d=\"M10 18a8 8 0 100-16 8 8 0 000 16zM8.707 7.293a1 1 0 00-1.414 1.414L8.586 10l-1.293 1.293a1 1 0 101.414 1.414L10 11.414l1.293 1.293a1 1 0 001.414-1.414L11.414 10l1.293-1.293a1 1 0 00-1.414-1.414L10 8.586 8.707 7.293z\" clip-rule=\"evenodd\" /></svg>".toList

def iconDot : Str :=
  "<svg class=\"h-3 w-3\" viewBox=\"0 0 20 20\" fill=\"currentColor\"><circle cx=\"10\" cy=\"10\" r=\"8\" /></svg>".toList

def iconAirplane : Str :=
  "<svg class=\"h-5 w-5\" viewBox=\"0 0 20 20\" fill=\"currentColor\"><path d=\"M10.894 2.553a1 1 0 00-1.788 0l-7 14a1 1 0 001.169 1.409l5-1.429A1 1 0 009 15.571V11a1 1 0 112 0v4.571a1 1 0 00.725.962l5 1.428a1 1 0 001.17-1.408l-7-14z\" /></svg>".toList

/-- One `<li>` of the subtopic list, reduced to the attributes the script
touches. -/
structure Row where
  topic : Str
  liClass : Str
  statusClass : Str
  statusHtml : Str
deriving DecidableEq

/-- One value of the `statusInfo` table (lines 110-115). -/
structure StatusInfo where
  icon : Str
  text : Str
  color : Str
  border : Str
deriving DecidableEq

/-- The `statusInfo` lookup of lines 110-117: the four known status strings
map to their rendering data, everything else to `none` (a falsy lookup). -/
def statusInfo (status : Str) : Option StatusInfo :=
  if status = "pending".toList then
    some ⟨iconDot, "pending".toList,
      "text-gray-500 dark:text-gray-400".toList,
      "border-gray-300 dark:border-zinc-600".toList⟩
  else if status = "in-progress".toList then
    some ⟨iconLoader, "in progress".toList,
      "text-sky-500 dark:text-sky-400".toList, "border-sky-500".toList⟩
  else if status = "complete".toList then
    some ⟨iconCheck, "complete".toList,
      "text-emerald-500 dark:text-emerald-400".toList,
      "border-emerald-500".toList⟩
  else if status = "error".toList then
    some ⟨iconError, "error".toList,
      "text-rose-500 dark:text-rose-400".toList, "border-rose-500".toList⟩
  else none

/-- Lines 119-121: overwrite the row's class, the status div's class and its
innerHTML from the looked-up rendering data; the topic label is untouched. -/
def applyStatus (currentStatus : StatusInfo) (listItem : Row) : Row :=
  { listItem with
    liClass :=
      "flex items-center justify-between p-3 bg-white dark:bg-zinc-800 rounded-lg border-l-4 ".toList
        ++ currentStatus.border
    statusClass :=
      "flex items-center gap-2 text-sm font-medium ".toList
        ++ currentStatus.color
    statusHtml :=
      currentStatus.icon ++ "<span class=\"capitalize\">".toList
        ++ currentStatus.text ++ "</span>".toList }

/-- The initial row rendered by `renderSubTopicList` (template lines 89-95);
the status div's innerHTML keeps the template literal's whitespace. -/
def initRow (topic : Str) : Row :=
  { topic := topic
    liClass :=
      "flex items-center justify-between p-3 bg-white dark:bg-zinc-800 rounded-lg border-l-4 border-gray-300 dark:border-zinc-600".toList
    statusClass :=
      "flex items-center gap-2 text-sm font-medium text-gray-500 dark:text-gray-400".toList
    statusHtml :=
      "\n                ".toList ++ iconDot
        ++ "\n                <span class=\"capitalize\">pending</span>\n              ".toList }

/-- `ul.children[index]`: `none` for a negative or past-the-end index. -/
def childAt (rows : List Row) (index : Int) : Option Row :=
  if index < 0 then none else rows[index.toNat]?

/-- The property names the `statusInfo` object literal inherits from
`Object.prototype`.  For these strings the JavaScript lookup
`statusInfo[status]` does not come back `undefined`: it returns a truthy
inherited value (a function, or the prototype object itself for
`__proto__`), even though the table of lines 110-115 has no such entry. -/
def protoKeys : List Str :=
  ["constructor".toList, "hasOwnProperty".toList, "isPrototypeOf".toList,
    "propertyIsEnumerable".toList, "toLocaleString".toList, "toString".toList,
    "valueOf".toList, "__defineGetter__".toList, "__defineSetter__".toList,
    "__lookupGetter__".toList, "__lookupSetter__".toList, "__proto__".toList]

/-- The rendering data produced when `currentStatus` is a truthy value
inherited from `Object.prototype`: such a value has no `icon`, `text`,
`color` or `border` property, each access yields `undefined`, and the
template literals of lines 119-121 stringify every interpolation as
`"undefined"`. -/
def undefinedStatusInfo : StatusInfo :=
  ⟨"undefined".toList, "undefined".toList, "undefined".toList,
    "undefined".toList⟩

/-- `updateSubTopicStatus` (lines 103-123) acting on the subtopic list
state: `none` models a missing `#subtopics-ul`; a missing child leaves the
list untouched.  The `statusInfo[status]` lookup of line 117 is an own key
(the four-entry table, modelled by `statusInfo`), or else a truthy value
inherited from `Object.prototype` (`protoKeys`), or else `undefined`; the
truthiness guard of line 118 therefore skips the mutation only in the last
case, and an inherited value rewrites the row with `undefined` styling. -/
def updateSubTopicStatus (index : Int) (status : Str) :
    Option (List Row) → Option (List Row)
  | none => none
  | some rows =>
    match childAt rows index with
    | none => some rows
    | some listItem =>
      match statusInfo status with
      | some currentStatus =>
        some (rows.set index.toNat (applyStatus currentStatus listItem))
      | none =>
        if status ∈ protoKeys then
          some (rows.set index.toNat (applyStatus undefinedStatusInfo listItem))
        else some rows

/-! ## The client state and the socket handlers (script.js lines 24-80,
152-163) -/

/-- The DOM state the script reads or writes, one field per touched
attribute.  `statusDot` is the optional `#status-message span` element
(destroyed whenever `statusMessage.textContent` is assigned); `subtopics`
is `none` when no `#subtopics-ul` exists. -/
structure ClientState where
  errorMessage : Str
  statusMessage : Str
  statusDot : Option Str
  subtopics : Option (List Row)
  reportHtml : Str
  reportVisible : Bool
  topicValue : Str
  topicDisabled : Bool
  btnDisabled : Bool
  btnWaitCursor : Bool
  btnHtml : Str
  currentTopic : Str
deriving DecidableEq

/-- `setUIState` (lines 24-34). -/
def setUIState (isResearching : Bool) (s : ClientState) : ClientState :=
  { s with
    topicDisabled := isResearching
    btnDisabled := isResearching || (jsTrim s.topicValue == [])
    btnWaitCursor := isResearching
    btnHtml :=
      if isResearching then iconLoader ++ "<span>Researching...</span>".toList
      else iconAirplane ++ "<span>Start Research</span>".toList }

/-- `resetUI` (lines 36-43); assigning `statusMessage.textContent` destroys
the dot span. -/
def resetUI (s : ClientState) : ClientState :=
  setUIState false
    { s with
      errorMessage := []
      subtopics := none
      reportHtml := []
      reportVisible := false
      statusMessage := "Ready to start your research.".toList
      statusDot := none }

/-- `setStatusColor` (lines 51-54): rewrite the dot span's class if the
span exists. -/
def setStatusColor (cls : Str) (s : ClientState) : ClientState :=
  { s with
    statusDot :=
      s.statusDot.map (fun _ => "inline-block h-2 w-2 rounded-full ".toList ++ cls) }

/-- The `status_update` handler (lines 56-58). -/
def onStatusUpdate (message : Str) (s : ClientState) : ClientState :=
  { s with statusMessage := message, statusDot := none }

/-- The `sub_topics_generated` handler (lines 60-63): recolor the dot, then
re-render the whole subtopic list with every row pending. -/
def onSubTopicsGenerated (subTopics : List Str) (s : ClientState) : ClientState :=
  let s := setStatusColor ("bg-sky-500".toList) s
  { s with subtopics := some (subTopics.map initRow) }

/-- The `sub_topic_update` handler (lines 65-67). -/
def onSubTopicUpdate (index : Int) (status : Str) (s : ClientState) : ClientState :=
  { s with subtopics := updateSubTopicStatus index status s.subtopics }

/-- The `final_report` handler (lines 69-73). -/
def onFinalReport (report : Str) (s : ClientState) : ClientState :=
  let s := { s with
    reportHtml := renderReport report s.currentTopic
    reportVisible := true }
  let s := setStatusColor ("bg-emerald-500".toList) s
  setUIState false s

/-- The `research_error` handler (lines 75-80): error text verbatim, status
line overwritten (destroying the dot span, so the recolor is a no-op),
controls re-enabled. -/
def onResearchError (error : Str) (s : ClientState) : ClientState :=
  let s := { s with errorMessage := error }
  let s := { s with statusMessage := "An error occurred.".toList, statusDot := none }
  let s := setStatusColor ("bg-rose-500".toList) s
  setUIState false s

/-- An outbound socket message. -/
structure OutMsg where
  event : Str
  topic : Str
deriving DecidableEq

/-- `startResearch` (lines 152-163): validate the trimmed topic, otherwise
reset the UI, enter the busy state and emit one `start_research` message
carrying the raw input value. -/
def startResearch (s : ClientState) : ClientState × List OutMsg :=
  let topic := s.topicValue
  if jsTrim topic = [] then
    ({ s with errorMessage := "Please enter a research topic.".toList }, [])
  else
    let s := { s with currentTopic := topic }
    let s := resetUI s
    let s := setUIState true s
    (s, [⟨"start_research".toList, topic⟩])

/-- The five inbound socket events of lines 56-80. -/
inductive SocketEvent where
  | statusUpdate (message : Str)
  | subTopicsGenerated (subTopics : List Str)
  | subTopicUpdate (index : Int) (status : Str)
  | finalReport (report : Str)
  | researchError (error : Str)

/-- Dispatch of an inbound event to its handler. -/
def handleEvent : SocketEvent → ClientState → ClientState
  | .statusUpdate m, s => onStatusUpdate m s
  | .subTopicsGenerated ts, s => onSubTopicsGenerated ts s
  | .subTopicUpdate i st, s => onSubTopicUpdate i st s
  | .finalReport r, s => onFinalReport r s
  | .researchError e, s => onResearchError e s

/-- A concrete idle state used by the concrete witnesses below. -/
def sampleState : ClientState :=
  { errorMessage := []
    statusMessage := "Ready to start your research.".toList
    statusDot := none
    subtopics := none
    reportHtml := []
    reportVisible := false
    topicValue := "Ocean currents".toList
    topicDisabled := false
    btnDisabled := false
    btnWaitCursor := false
    btnHtml := iconAirplane ++ "<span>Start Research</span>".toList
    currentTopic := [] }

/-! ## Helper lemmas -/

theorem exists_of_isPrefixOf : ∀ {l b : Str}, l.isPrefixOf b = true → ∃ t, b = l ++ t := by
  intro l
  induction l with
  | nil => exact fun {b} _ => ⟨b, rfl⟩
  | cons a as ih =>
    intro b h
    cases b with
    | nil => simp [List.isPrefixOf] at h
    | cons x xs =>
      simp only [List.isPrefixOf, Bool.and_eq_true, beq_iff_eq] at h
      obtain ⟨t, ht⟩ := ih h.2
      exact ⟨t, by simp [h.1, ht]⟩

theorem renderBlock_eq_blockHtml (block : Str) :
    renderBlock block = blockHtml (classifyBlock block) := by
  unfold renderBlock classifyBlock
  split_ifs <;> simp only [blockHtml, List.map_map] <;> rfl

theorem findClose_no_star : ∀ {l : Str}, l.count '*' = 0 → findClose ['*'] l = none := by
  intro l
  induction l with
  | nil => exact fun _ => rfl
  | cons c cs ih =>
    intro h
    have hc : ¬ ('*' = c) := by
      intro e
      rw [← e] at h
      simp [List.count_cons] at h
    have hcs : cs.count '*' = 0 := by
      rw [List.count_cons] at h
      omega
    have hpre : ¬ (['*'].isPrefixOf (c :: cs) = true) := by
      simp only [List.isPrefixOf, Bool.and_eq_true, beq_iff_eq]
      exact fun hx => hc hx.1
    simp only [findClose]
    rw [if_neg hpre]
    by_cases hn : c = '\n'
    · rw [if_pos hn]
    · rw [if_neg hn, ih hcs]

theorem replaceLazy_star2_id (pre post : Str) :
    ∀ (fuel : Nat) (s : Str), s.count '*' ≤ 1 →
      replaceLazy ['*', '*'] pre post fuel s = s := by
  intro fuel
  induction fuel with
  | zero => exact fun s _ => rfl
  | succ n ih =>
    intro s hs
    match s with
    | [] => rfl
    | c :: cs =>
      have hcs : cs.count '*' ≤ 1 := by
        rw [List.count_cons] at hs
        omega
      have hpre : ¬ (['*', '*'].isPrefixOf (c :: cs) = true) := by
        intro hp
        obtain ⟨t, ht⟩ := exists_of_isPrefixOf hp
        rw [ht, List.cons_append, List.cons_append, List.nil_append] at hs
        simp [List.count_cons] at hs
      simp only [replaceLazy]
      rw [if_neg hpre]
      exact congrArg (c :: ·) (ih cs hcs)

theorem replaceLazy_star1_id (pre post : Str) :
    ∀ (fuel : Nat) (s : Str), s.count '*' ≤ 1 →
      replaceLazy ['*'] pre post fuel s = s := by
  intro fuel
  induction fuel with
  | zero => exact fun s _ => rfl
  | succ n ih =>
    intro s hs
    match s with
    | [] => rfl
    | c :: cs =>
      have hcs : cs.count '*' ≤ 1 := by
        rw [List.count_cons] at hs
        omega
      by_cases hc : c = '*'
      · subst hc
        have hcs0 : cs.count '*' = 0 := by
          rw [List.count_cons] at hs
          simp at hs
          omega
        have hfc : findClose ['*'] cs = none := findClose_no_star hcs0
        have hpre : (['*'].isPrefixOf ('*' :: cs) = true) := by
          simp [List.isPrefixOf]
        simp only [replaceLazy]
        rw [if_pos hpre]
        simp only [List.length_cons, List.length_nil, List.drop_succ_cons, List.drop_zero]
        rw [hfc]
        exact congrArg ('*' :: ·) (ih cs hcs)
      · have hpre : ¬ (['*'].isPrefixOf (c :: cs) = true) := by
          simp only [List.isPrefixOf, Bool.and_eq_true, beq_iff_eq]
          exact fun hx => hc hx.1.symm
        simp only [replaceLazy]
        rw [if_neg hpre]
        exact congrArg (c :: ·) (ih cs hcs)

theorem formatInline_fixed {s : Str} (h : s.count '*' ≤ 1) : formatInline s = s := by
  unfold formatInline strongPass emPass
  rw [replaceLazy_star2_id strongOpen strongClose s.length s h]
  exact replaceLazy_star1_id emOpen emClose s.length s h

theorem updateSubTopicStatus_overwrite (rows : List Row) (i : Int) (row : Row)
    (si si' : StatusInfo) (s' : Str) (h : statusInfo s' = some si')
    (hc : childAt rows i = some row) :
    updateSubTopicStatus i s' (some (rows.set i.toNat (applyStatus si row)))
      = updateSubTopicStatus i s' (some rows) := by
  have hneg : ¬ i < 0 := by
    intro hlt
    simp [childAt, hlt] at hc
  have hlen : i.toNat < rows.length := by
    by_contra hge
    have hnone : rows[i.toNat]? = none := List.getElem?_eq_none (by omega)
    simp [childAt, hneg, hnone] at hc
  have hc' : childAt (rows.set i.toNat (applyStatus si row)) i
      = some (applyStatus si row) := by
    simp only [childAt, if_neg hneg]
    exact List.getElem?_set_eq_of_lt _ hlen
  simp only [updateSubTopicStatus, hc, hc', h, List.set_set]
  rfl

/-! ## Claim theorems -/

set_option maxRecDepth 8192 in
/-- C1: the renderer inserts report characters into the HTML handed to
`innerHTML` without any escaping, so a report containing an HTML tag has
that tag interpreted as a structural node of the produced document: the
raw `<img ...>` sequence of the report survives verbatim into the output
markup instead of appearing as literal text. -/
theorem renderReport_injects_raw_markup :
    containsSub ("<img src=x onerror=alert(1)>".toList)
      (renderReport ("<img src=x onerror=alert(1)>".toList) ("T".toList)) = true := by
  decide

/-- C2 counterexample: in a bullet block, a line that does not start with
`'- '` is not emitted with its literal text unaltered — its first two
characters are stripped as well ("bcd" becomes "d"). -/
theorem bulletList_line_not_literal :
    classifyBlock ("- a\nbcd".toList)
      ≠ Block.bulletList ["a".toList, "bcd".toList] := by
  decide

/-- C2 amended: for every block whose first line begins with `'- '`, each
line of the block is emitted as one list item whose text is the line with
its first 2 characters stripped, whether or not that line starts with
`'- '`. -/
theorem bulletList_strips_every_line (b : Str) (h : ("- ".toList).isPrefixOf b) :
    classifyBlock b = .bulletList ((splitLines b).map (fun item => item.drop 2)) := by
  obtain ⟨t, rfl⟩ := exists_of_isPrefixOf h
  simp [classifyBlock, List.isPrefixOf]

/-- C2 witness: the amended statement at the concrete block `"- a\nbcd"`. -/
theorem bulletList_strips_every_line_witness :
    classifyBlock ("- a\nbcd".toList) = Block.bulletList ["a".toList, "d".toList] :=
  (bulletList_strips_every_line ("- a\nbcd".toList) (by decide)).trans (by decide)

/-- C3 counterexample: an unmatched `**` is not left as literal text — the
second substitution pass matches the two stars as an empty `*X*` span. -/
theorem formatInline_double_star_not_literal :
    formatInline ("a ** b".toList) ≠ "a ** b".toList := by
  decide

/-- C3 amended: any text containing at most one `*` (in particular an
unmatched single `*`, e.g. `"a * b"`) is returned unchanged, but a `**`
with no further `*` is replaced by the emphasis pass with an empty
emphasis span: `"a ** b"` becomes `"a <em></em> b"`. -/
theorem formatInline_unmatched_star :
    (∀ s : Str, s.count '*' ≤ 1 → formatInline s = s) ∧
    formatInline ("a * b".toList) = "a * b".toList ∧
    formatInline ("a ** b".toList) = "a <em></em> b".toList := by
  refine ⟨fun s h => formatInline_fixed h, by decide, by decide⟩

/-- C3 witness: the universally quantified part of the amended statement at
the concrete input `"a * b"`. -/
theorem formatInline_unmatched_star_witness :
    ("a * b".toList).count '*' ≤ 1 ∧ formatInline ("a * b".toList) = "a * b".toList :=
  ⟨by decide, formatInline_unmatched_star.1 ("a * b".toList) (by decide)⟩

/-- C4 counterexample: a subtopic entry whose status was set to complete is
moved back by a later `pending` update — the complete-then-pending sequence
both changes the completed registry and lands in exactly the state a plain
`pending` update produces. -/
theorem status_moves_backward :
    updateSubTopicStatus 0 ("pending".toList)
        (updateSubTopicStatus 0 ("complete".toList) (some [initRow ("t".toList)]))
      ≠ updateSubTopicStatus 0 ("complete".toList) (some [initRow ("t".toList)]) ∧
    updateSubTopicStatus 0 ("pending".toList)
        (updateSubTopicStatus 0 ("complete".toList) (some [initRow ("t".toList)]))
      = updateSubTopicStatus 0 ("pending".toList) (some [initRow ("t".toList)]) :=
  ⟨by decide, by decide⟩

/-- C4 amended: `updateSubTopicStatus` overwrites the addressed entry with
whatever recognised status arrives, regardless of the entry's current
status — the last recognised update wins, so backward moves (e.g. Complete
back to Pending) do occur whenever the event stream sends them; no
monotonicity is enforced by the client. -/
theorem updateSubTopicStatus_last_writer_wins (rows : List Row) (i : Int)
    (s s' : Str) (si' : StatusInfo) (h : statusInfo s' = some si') :
    updateSubTopicStatus i s' (updateSubTopicStatus i s (some rows))
      = updateSubTopicStatus i s' (some rows) := by
  cases hc : childAt rows i with
  | none => simp [updateSubTopicStatus, hc]
  | some row =>
    cases hs : statusInfo s with
    | some si =>
      have hfirst : updateSubTopicStatus i s (some rows)
          = some (rows.set i.toNat (applyStatus si row)) := by
        simp [updateSubTopicStatus, hc, hs]
      rw [hfirst]
      exact updateSubTopicStatus_overwrite rows i row si si' s' h hc
    | none =>
      by_cases hp : s ∈ protoKeys
      · have hfirst : updateSubTopicStatus i s (some rows)
            = some (rows.set i.toNat (applyStatus undefinedStatusInfo row)) := by
          simp [updateSubTopicStatus, hc, hs, hp]
        rw [hfirst]
        exact updateSubTopicStatus_overwrite rows i row undefinedStatusInfo si' s' h hc
      · have hfirst : updateSubTopicStatus i s (some rows) = some rows := by
          simp [updateSubTopicStatus, hc, hs, hp]
        rw [hfirst]

/-- C4 witness: the amended statement at a concrete one-entry registry,
with `complete` followed by `pending`. -/
theorem updateSubTopicStatus_last_writer_wins_witness :
    updateSubTopicStatus 1 ("pending".toList)
        (updateSubTopicStatus 1 ("complete".toList)
          (some [initRow ("t".toList), initRow ("u".toList)]))
      = updateSubTopicStatus 1 ("pending".toList)
          (some [initRow ("t".toList), initRow ("u".toList)]) :=
  updateSubTopicStatus_last_writer_wins [initRow ("t".toList), initRow ("u".toList)] 1
    ("complete".toList) ("pending".toList)
    ⟨iconDot, "pending".toList, "text-gray-500 dark:text-gray-400".toList,
      "border-gray-300 dark:border-zinc-600".toList⟩ (by decide)

/-- C5: the handler does not leave every in-range entry unchanged under
unknown status strings.  For the in-range index 0 and the status string
`"constructor"` — not one of the four known statuses — the lookup
`statusInfo[status]` finds the truthy `constructor` property the object
literal inherits from `Object.prototype`, the guard of line 118 passes,
and lines 119-121 rewrite the addressed row with `undefined` stringified
into its class attributes and innerHTML. -/
theorem updateSubTopicStatus_proto_status_mutates :
    updateSubTopicStatus 0 ("constructor".toList) (some [initRow ("t".toList)])
      = some [applyStatus undefinedStatusInfo (initRow ("t".toList))] ∧
    updateSubTopicStatus 0 ("constructor".toList) (some [initRow ("t".toList)])
      ≠ some [initRow ("t".toList)] :=
  ⟨by decide, by decide⟩

/-- C6 counterexample: the `research_error` handler does not leave the
status text as it was — it overwrites it with the fixed string
`'An error occurred.'`. -/
theorem onResearchError_overwrites_status_text :
    (onResearchError ("timeout".toList) sampleState).statusMessage
      ≠ sampleState.statusMessage := by
  decide

/-- C6 amended: `research_error` surfaces the error message verbatim as the
user-visible error text and leaves the partially rendered subtopic list in
place, but it overwrites the status text with `'An error occurred.'` (and
re-enables the submit controls). -/
theorem onResearchError_spec (s : ClientState) (msg : Str) :
    (onResearchError msg s).errorMessage = msg ∧
    (onResearchError msg s).subtopics = s.subtopics ∧
    (onResearchError msg s).statusMessage = "An error occurred.".toList ∧
    (onResearchError msg s).topicDisabled = false ∧
    (onResearchError msg s).btnWaitCursor = false := by
  simp [onResearchError, setStatusColor, setUIState]

/-- C7: `startResearch` emits exactly one `start_research` message carrying
the submitted topic if and only if the topic is non-empty after trimming;
with a whitespace-only topic it emits nothing and changes nothing except
showing the validation message. -/
theorem startResearch_spec (s : ClientState) :
    ((startResearch s).2 = [⟨"start_research".toList, s.topicValue⟩]
        ↔ jsTrim s.topicValue ≠ []) ∧
    (jsTrim s.topicValue = [] →
      (startResearch s).1
          = { s with errorMessage := "Please enter a research topic.".toList } ∧
        (startResearch s).2 = []) := by
  by_cases h : jsTrim s.topicValue = []
  · simp [startResearch, h]
  · simp [startResearch, h]

/-- C7 witness: the validation branch of the theorem at a concrete state
whose topic input is whitespace only. -/
theorem startResearch_spec_witness :
    (startResearch { sampleState with topicValue := "   ".toList }).1
        = { sampleState with
            topicValue := "   ".toList
            errorMessage := "Please enter a research topic.".toList } ∧
      (startResearch { sampleState with topicValue := "   ".toList }).2 = [] :=
  (startResearch_spec { sampleState with topicValue := "   ".toList }).2 (by decide)

/-- C8: an index outside `[0, registrySize)` — negative, past the end, or
addressed while no subtopic list exists at all — leaves the registry
exactly as it was, for every status string and prior registry state. -/
theorem updateSubTopicStatus_out_of_range_noop (i : Int) (s : Str) :
    updateSubTopicStatus i s none = none ∧
    ∀ rows : List Row, (i < 0 ∨ (rows.length : Int) ≤ i) →
      updateSubTopicStatus i s (some rows) = some rows := by
  refine ⟨rfl, ?_⟩
  intro rows hi
  have hc : childAt rows i = none := by
    rcases hi with hi | hi
    · simp [childAt, hi]
    · have h0 : ¬ i < 0 := by omega
      have hlen : rows.length ≤ i.toNat := by omega
      simp [childAt, h0, List.getElem?_eq_none hlen]
  simp [updateSubTopicStatus, hc]

/-- C8 witness: the theorem at index 5 of a one-entry registry and at a
missing registry. -/
theorem updateSubTopicStatus_out_of_range_noop_witness :
    updateSubTopicStatus 5 ("complete".toList) none = none ∧
    updateSubTopicStatus 5 ("complete".toList) (some [initRow ("t".toList)])
      = some [initRow ("t".toList)] :=
  ⟨(updateSubTopicStatus_out_of_range_noop 5 ("complete".toList)).1,
    (updateSubTopicStatus_out_of_range_noop 5 ("complete".toList)).2
      [initRow ("t".toList)] (by decide)⟩

/-- C9: the block renderer splits on blank-line separators and classifies
each raw block by prefix with the stated strip widths (`'### '` → heading 3
stripping 4 characters, `'## '` → heading 2 stripping 3, `'# '` → heading 1
stripping 2, a first line starting `'- '` → bullet list, anything else a
paragraph), preserving empty leading and trailing blocks as empty
paragraphs; in particular `"# Title\n\nBody text"` yields
`[Heading 1 "Title", Paragraph "Body text"]` and `"- a\n- b"` yields
`[BulletList ["a", "b"]]`. -/
theorem renderBlocks_classification :
    renderBlocks ("# Title\n\nBody text".toList)
        = [.heading 1 ("Title".toList), .paragraph ("Body text".toList)] ∧
    renderBlocks ("- a\n- b".toList) = [.bulletList ["a".toList, "b".toList]] ∧
    renderBlocks ("\n\nBody".toList) = [.paragraph [], .paragraph ("Body".toList)] ∧
    renderBlocks ("Body\n\n".toList) = [.paragraph ("Body".toList), .paragraph []] ∧
    (∀ b : Str, ("### ".toList).isPrefixOf b → classifyBlock b = .heading 3 (b.drop 4)) ∧
    (∀ b : Str, ("## ".toList).isPrefixOf b → classifyBlock b = .heading 2 (b.drop 3)) ∧
    (∀ b : Str, ("# ".toList).isPrefixOf b → classifyBlock b = .heading 1 (b.drop 2)) ∧
    (∀ b : Str, ("- ".toList).isPrefixOf b →
      classifyBlock b = .bulletList ((splitLines b).map (fun item => item.drop 2))) ∧
    (∀ b : Str, ¬ ("### ".toList).isPrefixOf b → ¬ ("## ".toList).isPrefixOf b →
      ¬ ("# ".toList).isPrefixOf b → ¬ ("- ".toList).isPrefixOf b →
      classifyBlock b = .paragraph b) := by
  refine ⟨by decide, by decide, by decide, by decide, ?_, ?_, ?_, ?_, ?_⟩
  · intro b h
    obtain ⟨t, rfl⟩ := exists_of_isPrefixOf h
    simp [classifyBlock, List.isPrefixOf]
  · intro b h
    obtain ⟨t, rfl⟩ := exists_of_isPrefixOf h
    simp [classifyBlock, List.isPrefixOf]
  · intro b h
    obtain ⟨t, rfl⟩ := exists_of_isPrefixOf h
    simp [classifyBlock, List.isPrefixOf]
  · intro b h
    obtain ⟨t, rfl⟩ := exists_of_isPrefixOf h
    simp [classifyBlock, List.isPrefixOf]
  · intro b h3 h2 h1 hb
    unfold classifyBlock
    rw [if_neg h3, if_neg h2, if_neg h1, if_neg hb]

/-- C9 witness: the heading-3 conjunct of the theorem at the concrete block
`"### x"`. -/
theorem renderBlocks_classification_witness :
    classifyBlock ("### x".toList) = Block.heading 3 ("x".toList) :=
  (renderBlocks_classification.2.2.2.2.1 ("### x".toList) (by decide)).trans (by decide)

/-- C10: no inbound socket handler changes the topic input's value, and
after either terminal event (`final_report` or `research_error`) the
controls are re-enabled: the topic input is enabled, the busy cursor is
cleared, and — because the submitted topic is non-blank, which holds for
every running session since submission validates it and the input is
disabled while researching — the submit button is enabled, so a new
submission is immediately possible. -/
theorem terminal_events_reenable_controls (s : ClientState)
    (h : jsTrim s.topicValue ≠ []) (report msg : Str) :
    (∀ e : SocketEvent, (handleEvent e s).topicValue = s.topicValue) ∧
    (onFinalReport report s).topicDisabled = false ∧
    (onFinalReport report s).btnDisabled = false ∧
    (onFinalReport report s).btnWaitCursor = false ∧
    (onResearchError msg s).topicDisabled = false ∧
    (onResearchError msg s).btnDisabled = false ∧
    (onResearchError msg s).btnWaitCursor = false := by
  have hbeq : (jsTrim s.topicValue == ([] : Str)) = false :=
    beq_eq_false_iff_ne.mpr h
  refine ⟨fun e => ?_, ?_, ?_, ?_, ?_, ?_, ?_⟩
  · cases e <;>
      simp [handleEvent, onStatusUpdate, onSubTopicsGenerated, onSubTopicUpdate,
        onFinalReport, onResearchError, setStatusColor, setUIState]
  all_goals
    simp [onFinalReport, onResearchError, setStatusColor, setUIState, hbeq]

/-- C10 witness: the button-enabled conjunct after a `final_report` at a
concrete state with the non-blank topic `"Ocean currents"`. -/
theorem terminal_events_reenable_controls_witness :
    jsTrim sampleState.topicValue ≠ [] ∧
    (onFinalReport ("Done".toList) sampleState).btnDisabled = false ∧
    (onResearchError ("timeout".toList) sampleState).btnDisabled = false :=
  ⟨by decide,
    (terminal_events_reenable_controls sampleState (by decide)
      ("Done".toList) ("timeout".toList)).2.2.1,
    (terminal_events_reenable_controls sampleState (by decide)
      ("Done".toList) ("timeout".toList)).2.2.2.2.2.1⟩
